import Mathlib

/-!
Verification of `get_congress_members.py` (Leveneer/congress-member-data).

This file gives a shallow embedding of the functions of
`src/get_congress_members.py` that the checked claims are about, and
proves or refutes each claim against that embedding.

Python JSON-derived values are modelled by `PyVal`; Python exceptions
raised by the embedded code are modelled by `PyErr` through the
`Except` monad. Machine-independent Python integers are modelled by
`Int` (Python ints are unbounded); Python `//` is floor division,
modelled by `Int.fdiv`, and Python `%` on a positive modulus agrees
with `Int.emod` (Lean's `%` on `Int`).
-/

/-- Values occurring in the JSON payloads and argparse namespaces the
program manipulates. Dictionaries coming from JSON are string-keyed,
which is all the program ever builds or receives. -/
inductive PyVal where
  | none
  | bool (b : Bool)
  | int (n : Int)
  | str (s : String)
  | list (xs : List PyVal)
  | dict (entries : List (String × PyVal))

/-- Python exceptions that the embedded fragments can raise. -/
inductive PyErr where
  | keyError
  | attributeError
  | indexError
  | typeError
  | valueError (msg : String)
deriving DecidableEq

/-- Python truthiness (`bool(v)`): `None`, `0`, `""`, `[]`, `{}` are
falsy, everything else truthy. -/
def truthy : PyVal → Bool
  | .none => false
  | .bool b => b
  | .int n => n != 0
  | .str s => s != ""
  | .list xs => !xs.isEmpty
  | .dict es => !es.isEmpty

/-- Embeds `v.get(key, default)`: defined on dicts (first binding of
`key` wins, as in a Python dict), raising `AttributeError` when `v` is
not a dict (no `.get` method). -/
def pyGet (v : PyVal) (key : String) (default : PyVal) : Except PyErr PyVal :=
  match v with
  | .dict es => .ok ((es.lookup key).getD default)
  | _ => .error .attributeError

/-- Embeds integer subscription `v[i]`: on a list, a negative index
counts from the end and an out-of-range index raises `IndexError`; on
a (string-keyed, JSON-derived) dict an integer key is absent, raising
`KeyError`; other values are not subscriptable. -/
def pyIndex (v : PyVal) (i : Int) : Except PyErr PyVal :=
  match v with
  | .list xs =>
    let j := if i < 0 then i + xs.length else i
    if h : 0 ≤ j ∧ j.toNat < xs.length then .ok (xs.get ⟨j.toNat, h.2⟩)
    else .error .indexError
  | .dict _ => .error .keyError
  | _ => .error .typeError

/-- Embeds `acc.extend(v)` for the member lists the fetch loop
accumulates. The payloads the program reads hold member arrays as JSON
lists; extending from a non-list is not exercised and modelled as a
type error. -/
def pyExtend (acc : List PyVal) (v : PyVal) : Except PyErr (List PyVal) :=
  match v with
  | .list xs => .ok (acc ++ xs)
  | _ => .error .typeError

/-- Embeds Python `v == s` where `s` is a string literal: true exactly
when `v` is an equal string. -/
def pyEqStr (v : PyVal) (s : String) : Bool :=
  match v with
  | .str t => t == s
  | _ => false

/-- Left-to-right filtering that propagates the first exception raised
by the predicate, as a Python list comprehension does. -/
def filterE (p : PyVal → Except PyErr Bool) : List PyVal → Except PyErr (List PyVal)
  | [] => .ok []
  | x :: xs => do
    let b ← p x
    let rest ← filterE p xs
    pure (if b then x :: rest else rest)

/-- Embeds `getattr` on an argparse `Namespace`, modelled as the list
of attributes `parse_args` set: a name the parser never defined raises
`AttributeError`. -/
def pyGetAttr (ns : List (String × PyVal)) (name : String) : Except PyErr PyVal :=
  match ns.lookup name with
  | some v => .ok v
  | Option.none => .error .attributeError

/-- Embeds `get_current_chamber` (src lines 112-122):
`terms = member.get('terms', {}).get('item', [])`; when `terms` is
truthy, `terms[-1].get('chamber', '')`, normalising
`'House of Representatives'` to `'House'`; otherwise `''`. Note the
source indexes `terms[-1]` directly, with no coercion of a bare dict
to a list. -/
def get_current_chamber (member : PyVal) : Except PyErr PyVal := do
  let termsOuter ← pyGet member "terms" (.dict [])
  let terms ← pyGet termsOuter "item" (.list [])
  if truthy terms then do
    let last ← pyIndex terms (-1)
    let chamber ← pyGet last "chamber" (.str "")
    pure (if pyEqStr chamber "House of Representatives" then .str "House" else chamber)
  else
    pure (.str "")

/-- The `STATE_NAMES` state-code lookup table (src lines 82-96). -/
def STATE_NAMES : List (String × String) :=
  [("AL", "Alabama"), ("AK", "Alaska"), ("AZ", "Arizona"), ("AR", "Arkansas"),
   ("CA", "California"), ("CO", "Colorado"), ("CT", "Connecticut"), ("DE", "Delaware"),
   ("FL", "Florida"), ("GA", "Georgia"), ("HI", "Hawaii"), ("ID", "Idaho"),
   ("IL", "Illinois"), ("IN", "Indiana"), ("IA", "Iowa"), ("KS", "Kansas"),
   ("KY", "Kentucky"), ("LA", "Louisiana"), ("ME", "Maine"), ("MD", "Maryland"),
   ("MA", "Massachusetts"), ("MI", "Michigan"), ("MN", "Minnesota"), ("MS", "Mississippi"),
   ("MO", "Missouri"), ("MT", "Montana"), ("NE", "Nebraska"), ("NV", "Nevada"),
   ("NH", "New Hampshire"), ("NJ", "New Jersey"), ("NM", "New Mexico"), ("NY", "New York"),
   ("NC", "North Carolina"), ("ND", "North Dakota"), ("OH", "Ohio"), ("OK", "Oklahoma"),
   ("OR", "Oregon"), ("PA", "Pennsylvania"), ("RI", "Rhode Island"), ("SC", "South Carolina"),
   ("SD", "South Dakota"), ("TN", "Tennessee"), ("TX", "Texas"), ("UT", "Utah"),
   ("VT", "Vermont"), ("VA", "Virginia"), ("WA", "Washington"), ("WV", "West Virginia"),
   ("WI", "Wisconsin"), ("WY", "Wyoming"), ("DC", "District of Columbia")]

/-- Characters Python's `str.strip()` removes: ASCII whitespace (the
inputs at issue are two-letter state codes, which carry no other
Unicode whitespace). -/
def isPySpace (c : Char) : Bool :=
  c = ' ' || c = '\t' || c = '\n' || c = '\r' || c = '\x0b' || c = '\x0c'

/-- Embeds Python's `str.strip()`: drop leading and trailing
whitespace. -/
def pyStrip (s : String) : String :=
  String.mk (((s.data.dropWhile isPySpace).reverse.dropWhile isPySpace).reverse)

/-- Embeds Python's `str.upper()` on the ASCII arguments the program
passes it (state codes). -/
def pyUpper (s : String) : String :=
  String.mk (s.data.map Char.toUpper)

/-- Embeds the `while True` pagination loop of `fetch_congress_members`
(src lines 175-197). The upstream is abstracted as the finite transcript
`responses` of successful JSON bodies, served one per request in order
(HTTP transport and `raise_for_status` are outside the model); `reqs`
counts requests issued so far and is reported alongside the outcome.
Each iteration reads `data.get('members', [])`, stops when that list is
falsy, extends the accumulator, and stops unless
`data.get('pagination', {}).get('next')` is truthy. Running past the
supplied transcript would contact the upstream again and is reported as
an error. -/
def fetch_members_loop : List PyVal → List PyVal → Nat → Except PyErr (List PyVal) × Nat
  | [], _, reqs => (.error .typeError, reqs)
  | data :: rest, acc, reqs =>
    let reqs := reqs + 1
    match pyGet data "members" (.list []) with
    | .error e => (.error e, reqs)
    | .ok members =>
      if truthy members = false then (.ok acc, reqs)
      else
        match pyExtend acc members with
        | .error e => (.error e, reqs)
        | .ok acc =>
          match pyGet data "pagination" (.dict []) with
          | .error e => (.error e, reqs)
          | .ok pagination =>
            match pyGet pagination "next" .none with
            | .error e => (.error e, reqs)
            | .ok next =>
              if truthy next then fetch_members_loop rest acc reqs
              else (.ok acc, reqs)

/-- Embeds `fetch_congress_members` (src lines 124-256) after the
pagination loop: the state filter (lines 203-213, raising `ValueError`
on a code missing from `STATE_NAMES`, filtering by
`m.get('state') == state_name`) and the chamber filter (lines 216-221,
keeping members with `get_current_chamber(m) == chamber`). `congress`
only parameterises the request URL and the statistics pass, neither of
which the checked claims depend on; the statistics dictionary is not
modelled. Filters run only when their argument is truthy, as in the
source. -/
def fetch_congress_members (responses : List PyVal)
    (chamber state : Option String) : Except PyErr (List PyVal) × Nat :=
  let (r, reqs) := fetch_members_loop responses [] 0
  match r with
  | .error e => (.error e, reqs)
  | .ok allMembers =>
    let afterState : Except PyErr (List PyVal) :=
      match state with
      | some st =>
        if st ≠ "" then
          match STATE_NAMES.lookup (pyUpper st) with
          | some stateName =>
            filterE (fun m => do
              let s ← pyGet m "state" .none
              pure (pyEqStr s stateName)) allMembers
          | Option.none => .error (.valueError ("Invalid state code: " ++ st))
        else .ok allMembers
      | Option.none => .ok allMembers
    match afterState with
    | .error e => (.error e, reqs)
    | .ok ms =>
      match chamber with
      | some ch =>
        if ch ≠ "" then
          (filterE (fun m => do
            let c ← get_current_chamber m
            pure (pyEqStr c ch)) ms, reqs)
        else (.ok ms, reqs)
      | Option.none => (.ok ms, reqs)

/-- Embeds `get_congress_members` (src lines 372-426): validates the
state code — strip whitespace, reject empty, reject a code missing from
`STATE_NAMES` — before `fetch_congress_members` is called (hence before
any upstream request), then delegates with the upper-cased code. -/
def get_congress_members (responses : List PyVal)
    (chamber state : Option String) : Except PyErr (List PyVal) × Nat :=
  match state with
  | some s =>
    let s := pyStrip s
    if s = "" then (.error (.valueError "State code cannot be empty"), 0)
    else
      match STATE_NAMES.lookup (pyUpper s) with
      | Option.none => (.error (.valueError ("Invalid state code: " ++ s)), 0)
      | some _ => fetch_congress_members responses chamber (some (pyUpper s))
  | Option.none => fetch_congress_members responses chamber Option.none

/-- A `datetime.date` value: the program only reads `year`, `month`
and `day`. -/
structure Date where
  year : Int
  month : Int
  day : Int
deriving DecidableEq

/-- Embeds `calculate_congress_number` (src lines 290-312) at an
explicit date (the `date.today()` default performs I/O and is outside
the model): decrement an even year, then — testing the already
decremented year's parity — subtract two more when the date's month is
1 and its day below 3, and return `1 + (year - 1789) // 2` with
Python's floor division. -/
def calculate_congress_number (d : Date) : Int :=
  let year := d.year
  let year := if year % 2 = 0 then year - 1 else year
  let year := if year % 2 = 1 ∧ d.month = 1 ∧ d.day < 3 then year - 2 else year
  1 + (year - 1789).fdiv 2

/-- Strict lexicographic order on calendar dates. -/
def dateLt (a b : Date) : Prop :=
  a.year < b.year ∨ (a.year = b.year ∧
    (a.month < b.month ∨ (a.month = b.month ∧ a.day < b.day)))

/-- Lexicographic order on calendar dates. -/
def dateLe (a b : Date) : Prop :=
  dateLt a b ∨ a = b

instance (a b : Date) : Decidable (dateLt a b) := by
  unfold dateLt; infer_instance

instance (a b : Date) : Decidable (dateLe a b) := by
  unfold dateLe; infer_instance

/-- Stated from the claim (not from the source): date `d` lies in
session `n`'s two-year span, from day `(start_year, 1, 3)` — or
`(1789, 3, 4)` for session 1 — up to but excluding day
`(start_year + 2, 1, 3)`, with `start_year = 1789 + (n - 1) * 2`. -/
def inSessionSpan (n : Int) (d : Date) : Prop :=
  ((n = 1 ∧ dateLe ⟨1789, 3, 4⟩ d) ∨
   (n ≠ 1 ∧ dateLe ⟨1789 + (n - 1) * 2, 1, 3⟩ d)) ∧
  dateLt d ⟨1789 + (n - 1) * 2 + 2, 1, 3⟩

instance (n : Int) (d : Date) : Decidable (inSessionSpan n d) := by
  unfold inSessionSpan; infer_instance

/-- Embeds `get_congress_years` (src lines 314-327): pure arithmetic
`start = 1789 + (congress - 1) * 2`, `end = start + 2`. -/
def get_congress_years (congress : Int) : Int × Int :=
  let start_year := 1789 + (congress - 1) * 2
  let end_year := start_year + 2
  (start_year, end_year)

/-- Embeds `get_congress_transition_month` (src lines 447-486): two
hard-coded special cases for `year == 1933` at congresses 72 and 73,
then `("March", 3)` below congress 73 and `("January", 1)` from 73 on.
The optional `year` argument defaults to `None`, modelled by
`Option.none`. -/
def get_congress_transition_month (congress : Int)
    (year : Option Int := Option.none) : String × Int :=
  if year = some 1933 ∧ congress = 72 then ("March", 3)
  else if year = some 1933 ∧ congress = 73 then ("January", 1)
  else if congress < 73 then ("March", 3)
  else ("January", 1)

/-- Embeds `format_ordinal` (src lines 509-517): suffix `'th'` when
`10 <= n % 100 <= 20`, otherwise the dict `{1: 'st', 2: 'nd', 3: 'rd'}`
looked up at `n % 10` with default `'th'`; result is `str(n)` followed
by the suffix. The claim ranges over non-negative integers, so `n` is
a `Nat` (on which Python's `str`, `%` and Lean's agree). -/
def format_ordinal (n : Nat) : String :=
  let suffix :=
    if 10 ≤ n % 100 ∧ n % 100 ≤ 20 then "th"
    else (([(1, "st"), (2, "nd"), (3, "rd")] : List (Nat × String)).lookup (n % 10)).getD "th"
  toString n ++ suffix

/-- Stated from the claim (not from the source): the suffix is `'th'`
when `n % 100` lies in `10..20` inclusive, and otherwise `'st'`,
`'nd'`, `'rd'` or `'th'` according to whether the last digit is 1, 2,
3 or anything else. -/
def claimed_ordinal_suffix (n : Nat) : String :=
  if 10 ≤ n % 100 ∧ n % 100 ≤ 20 then "th"
  else if n % 10 = 1 then "st"
  else if n % 10 = 2 then "nd"
  else if n % 10 = 3 then "rd"
  else "th"

/-- Embeds `normalize_chamber` (src lines 350-370): `None`/empty give
`None`; otherwise lower-case and map `house`/`h` to `House`,
`senate`/`s` to `Senate`, anything else to `None`. -/
def normalize_chamber (chamber : Option String) : Option String :=
  match chamber with
  | Option.none => Option.none
  | some c =>
    if c = "" then Option.none
    else
      let c := c.toLower
      if c = "house" ∨ c = "h" then some "House"
      else if c = "senate" ∨ c = "s" then some "Senate"
      else Option.none

/-- Embeds `generate_output_filename` (src lines 329-348):
`members_{congress}_{chamber}_{state}.csv`, with `All` for a falsy
chamber and the state segment present only for a truthy state. -/
def generate_output_filename (congress : Int)
    (chamber state : Option String) : String :=
  let parts := ["members", toString congress]
  let parts := parts ++ [match chamber with
    | some c => if c ≠ "" then c else "All"
    | Option.none => "All"]
  let parts := parts ++ (match state with
    | some s => if s ≠ "" then [pyUpper s] else []
    | Option.none => [])
  String.intercalate "_" parts ++ ".csv"

/-- The statistics dictionary `fetch_congress_members` returns
alongside the member list (src lines 223-227): `main` only forwards it
to `write_to_csv`, so its derivation is left abstract. -/
structure Stats where
  total : Int
  former : Int
  redistricted : Int

/-- Converts an optional Python int argument to the `PyVal` argparse
stores. -/
def optInt : Option Int → PyVal
  | Option.none => .none
  | some n => .int n

/-- Converts an optional Python string argument to the `PyVal`
argparse stores. -/
def optStr : Option String → PyVal
  | Option.none => .none
  | some s => .str s

/-- The argparse `Namespace` produced by `parser.parse_args()` in
`main` (src lines 520-553): exactly the destinations `congress`,
`which`, `chamber`, `state`, `output`, `api_key` and `debug` are set
(defaults `None`, and `False` for the `store_true` flag `debug`). No
`stream` destination is ever declared. -/
def parsedNamespace (congress which : Option Int)
    (chamber state output apiKey : Option String) (debug : Bool) :
    List (String × PyVal) :=
  [("congress", optInt congress), ("which", optInt which),
   ("chamber", optStr chamber), ("state", optStr state),
   ("output", optStr output), ("api_key", optStr apiKey),
   ("debug", .bool debug)]

/-- Observable outcome of one run of `main`. `exitedWithError c` is a
run that printed to stderr and called `sys.exit(c)` (or died on an
uncaught exception) without writing any CSV file; `csvWritten f` is
the `write_to_csv` branch reaching a write of file `f`;
`streamReturned` is the `args.stream` truthy branch returning data;
`yearInfoPrinted` is the `--which` year-lookup branch (whose printing
and bounds check no claim depends on). -/
inductive MainOutcome where
  | exitedWithError (code : Int)
  | yearInfoPrinted
  | streamReturned (members : List PyVal) (stats : Stats)
  | csvWritten (filename : String)

/-- Embeds `main` (src lines 519-603) from `parse_args` on, over the
namespace `ns` the parser produced. `get_api_key` touches the
environment and is abstracted as its result `resolvedKey`; the call to
`get_congress_members` inside the `try` block is abstracted as its
outcome `fetchResult`. The body mirrors the source order: the
`args.which` branch, chamber normalisation (exit 1 on an invalid
token), the API-key check (exit 1 when absent), then the `try` block —
a raised exception, including the `AttributeError` from the undefined
`args.stream`, is caught by `except Exception` and ends in
`sys.exit(1)`; otherwise a truthy `args.stream` returns the data and a
falsy one writes the CSV, defaulting the filename via
`generate_output_filename`. -/
def main_model (ns : List (String × PyVal)) (resolvedKey : Option String)
    (fetchResult : Except PyErr (List PyVal × Stats)) : MainOutcome :=
  match pyGetAttr ns "which" with
  | .error _ => .exitedWithError 1
  | .ok whichV =>
    if truthy whichV then .yearInfoPrinted
    else
      match pyGetAttr ns "chamber" with
      | .error _ => .exitedWithError 1
      | .ok chamberV =>
        let chamberAfter : Option PyVal :=
          if truthy chamberV then
            match chamberV with
            | .str c =>
              match normalize_chamber (some c) with
              | some nc => some (.str nc)
              | Option.none => Option.none
            | _ => Option.none
          else some chamberV
        match chamberAfter with
        | Option.none => .exitedWithError 1
        | some chamberFinal =>
          match resolvedKey with
          | Option.none => .exitedWithError 1
          | some _ =>
            match fetchResult with
            | .error _ => .exitedWithError 1
            | .ok (members, stats) =>
              match pyGetAttr ns "stream" with
              | .error _ => .exitedWithError 1
              | .ok streamV =>
                if truthy streamV then .streamReturned members stats
                else
                  match pyGetAttr ns "output", pyGetAttr ns "congress",
                        pyGetAttr ns "state" with
                  | .ok outV, .ok congV, .ok stateV =>
                    if truthy outV then
                      match outV with
                      | .str o => .csvWritten o
                      | _ => .exitedWithError 1
                    else
                      match congV with
                      | .int cg =>
                        .csvWritten (generate_output_filename cg
                          (match chamberFinal with
                           | .str c => some c
                           | _ => Option.none)
                          (match stateV with
                           | .str s => some s
                           | _ => Option.none))
                      | _ => .exitedWithError 1
                  | _, _, _ => .exitedWithError 1

/-- A generic member record as returned in an upstream `members`
array; its contents are irrelevant to the pagination claims. -/
def memberStub : PyVal := .dict [("bioguideId", .str "M")]

/-- Builds one upstream JSON response body from a members array and a
pagination object. -/
def mkResp (ms : List PyVal) (pag : List (String × PyVal)) : PyVal :=
  .dict [("members", .list ms), ("pagination", .dict pag)]

/-- First page of the two-page scenario: 250 records, `next` marker
present. -/
def page1 : PyVal :=
  mkResp (List.replicate 250 memberStub) [("count", .int 500), ("next", .str "exists")]

/-- Second page of the two-page scenario: 250 records, `next` marker
absent. -/
def page2 : PyVal :=
  mkResp (List.replicate 250 memberStub) [("count", .int 500)]

/-- A page whose `next` marker is a non-empty nested object instead of
the expected scalar or null. -/
def pageObjNext : PyVal :=
  mkResp [memberStub] [("count", .int 1), ("next", .dict [("url", .str "u")])]

/-- A page with an empty members array, which the loop treats as "no
more members". -/
def pageEmpty : PyVal := mkResp [] []

/-- C1: the claim states that every date in session `n`'s span (from
`(start_year, 1, 3)`, or `(1789, 3, 4)` for session 1, up to but
excluding `(start_year + 2, 1, 3)`) maps to `n`, with 2023-01-02 at
117 and 2023-01-03 at 118. The code violates the universal part: its
before-January-3 adjustment tests the parity of the already-normalised
year (always odd) instead of the date's own year, so January 1-2 of an
even year — here 2024-01-01, squarely inside session 118's span — is
pushed back to session 117. The two named scenario dates do hold. -/
theorem calculate_congress_number_even_year_cutoff_bug :
    inSessionSpan 118 ⟨2024, 1, 1⟩ ∧
    calculate_congress_number ⟨2024, 1, 1⟩ = 117 ∧
    calculate_congress_number ⟨2023, 1, 2⟩ = 117 ∧
    calculate_congress_number ⟨2023, 1, 3⟩ = 118 := by
  refine ⟨by decide, by decide, by decide, by decide⟩

/-- C2: in fetch-and-export mode (`--which` absent), with any parsed
arguments, a resolved API key and a successful fetch, `main` reads the
attribute `args.stream`, which the argument parser never defines; the
resulting `AttributeError` is caught by the blanket `except Exception`
and the run exits with status 1 having written no CSV file, so the
`write_to_csv` branch of `main` is unreachable. Proved for every
chamber token, valid or not (an invalid one exits 1 even earlier). -/
theorem main_model_stream_attribute_exit
    (congress : Option Int) (chamber state output apiKeyArg : Option String)
    (debug : Bool) (key : String) (members : List PyVal) (stats : Stats) :
    main_model (parsedNamespace congress Option.none chamber state output apiKeyArg debug)
      (some key) (.ok (members, stats)) = .exitedWithError 1 := by
  cases chamber with
  | none => rfl
  | some c =>
    conv_lhs => whnf
    simp only [optStr, truthy]
    by_cases hc : (c != "") = true
    · rw [if_pos hc]
      cases normalize_chamber (some c) <;> rfl
    · rw [if_neg hc]; rfl

/-- C3: the claim states that `get_current_chamber` coerces a bare
term object (`terms -> item` a single mapping) to a one-element list
and returns its chamber without error. The code has no such coercion
there: `terms[-1]` on a string-keyed dict raises `KeyError` (the
coercion exists only in the statistics pass of
`fetch_congress_members`, and the repository's own test expects the
bare-object record to yield `Senate`). The missing/empty-terms part of
the claim does hold and is proved alongside. -/
theorem get_current_chamber_bare_object_raises :
    get_current_chamber (.dict [("terms", .dict [("item",
        .dict [("chamber", .str "Senate"), ("congress", .str "118")])])])
      = .error .keyError ∧
    get_current_chamber (.dict []) = .ok (.str "") ∧
    get_current_chamber (.dict [("terms", .dict [("item", .list [])])]) = .ok (.str "") :=
  ⟨rfl, rfl, rfl⟩

/-- C4 counterexample: a page whose `next` marker is a non-empty
nested object is truthy under `if not pagination.get('next')`, so the
loop does not stop: it issues a further upstream request (two requests
in total here), contrary to the claim that a nested-object marker is
treated as "no further page". -/
theorem fetch_loop_object_marker_continues :
    fetch_members_loop [pageObjNext, pageEmpty] [] 0 = (.ok [memberStub], 2) := rfl

/-- Reading the members array out of a response built by `mkResp`. -/
theorem lookup_members (ms : List PyVal) (pag : List (String × PyVal)) :
    pyGet (mkResp ms pag) "members" (.list []) = .ok (.list ms) := rfl

/-- Reading the pagination object out of a response built by `mkResp`. -/
theorem lookup_pagination (ms : List PyVal) (pag : List (String × PyVal)) :
    pyGet (mkResp ms pag) "pagination" (.dict []) = .ok (.dict pag) := rfl

/-- Reading the `next` marker out of a pagination dict. -/
theorem pyGet_next (pag : List (String × PyVal)) :
    pyGet (.dict pag) "next" .none = .ok ((pag.lookup "next").getD .none) := rfl

/-- C4 (amended): the fetch loop stops paginating, without error and
with no further upstream request, whenever the page's `next` marker is
falsy — absent, null, empty string, zero, or an *empty* nested object;
a non-empty nested object is truthy and makes the loop continue. -/
theorem fetch_loop_stops_on_falsy_marker
    (ms : List PyVal) (pag : List (String × PyVal)) (rest acc : List PyVal) (reqs : Nat)
    (hms : truthy (.list ms) = true)
    (hnext : truthy ((pag.lookup "next").getD .none) = false) :
    fetch_members_loop (mkResp ms pag :: rest) acc reqs = (.ok (acc ++ ms), reqs + 1) := by
  simp [fetch_members_loop, lookup_members, lookup_pagination, pyGet_next, pyExtend, hms, hnext]

/-- C4 witness: a one-page transcript whose marker is the empty nested
object stops after a single request with the page's records and no
error. -/
theorem fetch_loop_stops_on_falsy_marker_witness :
    fetch_members_loop [mkResp [memberStub] [("next", PyVal.dict [])], pageEmpty] [] 0
      = (.ok [memberStub], 1) :=
  fetch_loop_stops_on_falsy_marker [memberStub] [("next", PyVal.dict [])] [pageEmpty] [] 0
    rfl rfl

/-- C5: requesting members through `get_congress_members` with a state
code missing from `STATE_NAMES` (after stripping and upper-casing)
raises `ValueError` with zero upstream requests issued — the
validation runs before `fetch_congress_members` — and is never
silently ignored. -/
theorem get_congress_members_unknown_state_rejected
    (responses : List PyVal) (chamber : Option String) (s : String)
    (h : STATE_NAMES.lookup (pyUpper (pyStrip s)) = Option.none) :
    (∃ msg, (get_congress_members responses chamber (some s)).1
      = .error (.valueError msg)) ∧
    (get_congress_members responses chamber (some s)).2 = 0 := by
  unfold get_congress_members
  by_cases he : pyStrip s = ""
  · simp [he]
  · simp [he, h]

/-- C5 witness: the unknown code `ZZ` is rejected before any upstream
request. -/
theorem get_congress_members_unknown_state_rejected_witness :
    (∃ msg, (get_congress_members [] Option.none (some "ZZ")).1
      = .error (.valueError msg)) ∧
    (get_congress_members [] Option.none (some "ZZ")).2 = 0 :=
  get_congress_members_unknown_state_rejected [] Option.none "ZZ" rfl

/-- C6: for every session `n ≥ 1`, `get_congress_years n` is exactly
`(1789 + (n-1)*2, 1789 + (n-1)*2 + 2)` — a total pure function — and
consecutive sessions are contiguous and strictly increasing. -/
theorem get_congress_years_spec (n : Int) (h : 1 ≤ n) :
    get_congress_years n = (1789 + (n - 1) * 2, 1789 + (n - 1) * 2 + 2) ∧
    (get_congress_years n).2 = (get_congress_years (n + 1)).1 ∧
    (get_congress_years n).1 < (get_congress_years (n + 1)).1 := by
  refine ⟨rfl, ?_, ?_⟩ <;> simp only [get_congress_years] <;> omega

/-- C6 witness: session 1 covers 1789-1791 and meets session 2. -/
theorem get_congress_years_spec_witness :
    get_congress_years 1 = (1789, 1791) ∧
    (get_congress_years 1).2 = (get_congress_years 2).1 ∧
    (get_congress_years 1).1 < (get_congress_years 2).1 :=
  get_congress_years_spec 1 (by norm_num)

/-- C7: with no year argument, `get_congress_transition_month` returns
`("March", 3)` below congress 73 and `("January", 1)` from congress 73
on; with the explicit year 1933, congress 72 reports March and
congress 73 reports January. -/
theorem get_congress_transition_month_spec :
    (∀ c : Int, c < 73 → get_congress_transition_month c = ("March", 3)) ∧
    (∀ c : Int, 73 ≤ c → get_congress_transition_month c = ("January", 1)) ∧
    get_congress_transition_month 72 (some 1933) = ("March", 3) ∧
    get_congress_transition_month 73 (some 1933) = ("January", 1) := by
  refine ⟨?_, ?_, rfl, rfl⟩
  · intro c hc
    unfold get_congress_transition_month
    simp [hc]
  · intro c hc
    unfold get_congress_transition_month
    simp [hc, show ¬c < 73 by omega]

/-- C7 witness: concrete congresses on both sides of the 1933
transition, with and without the explicit year. -/
theorem get_congress_transition_month_spec_witness :
    get_congress_transition_month 1 = ("March", 3) ∧
    get_congress_transition_month 100 = ("January", 1) ∧
    get_congress_transition_month 72 (some 1933) = ("March", 3) ∧
    get_congress_transition_month 73 (some 1933) = ("January", 1) :=
  ⟨get_congress_transition_month_spec.1 1 (by norm_num),
   get_congress_transition_month_spec.2.1 100 (by norm_num),
   get_congress_transition_month_spec.2.2.1,
   get_congress_transition_month_spec.2.2.2⟩

/-- C8: for every non-negative integer, `format_ordinal` appends `th`
when the last two digits lie in 10..20 inclusive and otherwise picks
the suffix from the last digit (1 to `st`, 2 to `nd`, 3 to `rd`, else
`th`), matching the claim's suffix rule verbatim, with the nine listed
examples. -/
theorem format_ordinal_spec :
    (∀ n : Nat, format_ordinal n = toString n ++ claimed_ordinal_suffix n) ∧
    format_ordinal 1 = "1st" ∧ format_ordinal 2 = "2nd" ∧ format_ordinal 3 = "3rd" ∧
    format_ordinal 4 = "4th" ∧ format_ordinal 11 = "11th" ∧ format_ordinal 12 = "12th" ∧
    format_ordinal 13 = "13th" ∧ format_ordinal 21 = "21st" ∧ format_ordinal 111 = "111th" := by
  refine ⟨?_, rfl, rfl, rfl, rfl, rfl, rfl, rfl, rfl, rfl⟩
  intro n
  unfold format_ordinal claimed_ordinal_suffix
  by_cases h : 10 ≤ n % 100 ∧ n % 100 ≤ 20
  · simp [h]
  · simp only [if_neg h]
    congr 1
    have h10 : n % 10 < 10 := Nat.mod_lt _ (by norm_num)
    generalize hm : n % 10 = m at h10 ⊢
    interval_cases m <;> rfl

set_option maxRecDepth 4000 in
/-- C9: on a transcript of two pages of 250 records each, the first
carrying a `next` marker and the second lacking one, the fetch loop
returns exactly 500 accumulated records after exactly 2 upstream
requests, without error. -/
theorem fetch_loop_two_pages_five_hundred :
    fetch_members_loop [page1, page2] [] 0 =
      (.ok (List.replicate 250 memberStub ++ List.replicate 250 memberStub), 2) ∧
    (List.replicate 250 memberStub ++ List.replicate 250 memberStub).length = 500 := by
  refine ⟨rfl, by simp⟩

/-- C10: the two hard-coded 1933 branches of
`get_congress_transition_month` never change its result: for every
congress and every optional year the output equals the no-year call,
and is fully determined by whether the congress is below 73. -/
theorem get_congress_transition_month_year_irrelevant (c : Int) (y : Option Int) :
    get_congress_transition_month c y = get_congress_transition_month c ∧
    get_congress_transition_month c y =
      (if c < 73 then ("March", 3) else ("January", 1)) := by
  unfold get_congress_transition_month
  rcases y with _ | yv
  · simp
  · by_cases h1933 : yv = 1933
    · subst h1933
      by_cases h72 : c = 72
      · subst h72; norm_num
      · by_cases h73 : c = 73
        · subst h73; norm_num
        · simp [h72, h73]
    · simp [h1933]
